import Mathlib

/-!
Shallow embedding of the tamr_client Python library
(`tamr_client/operation.py`, `tamr_client/dataset/_dataset.py`,
`tamr_client/instance.py`) for checking its specification.

Modelling conventions:
* JSON values are the inductive `Tamr.Json`; a Python `None` stored in a dict
  is `Json.null`.
* Python exceptions become `Except Tamr.ClientError` results; each raise site
  in the source maps to one `ClientError` constructor.
* The opaque HTTP session is an oracle: `wait` consumes a trace
  `responses : Nat -> HttpResponse` giving the response to its n-th GET of the
  operation's URL, and `time.time()` is the oracle `clock : Nat -> Rat` giving
  the value returned by the n-th call of `now` (`clock 0` is the `started`
  reading).  `time.sleep` is observable only through the sleep counter, since
  real durations are already absorbed into the arbitrary clock.
* The unbounded `while` loop of `wait` is indexed by fuel; exhausting the fuel
  (`WaitOutcome.outOfFuel`) models a run that is still looping.
-/

namespace Tamr

/-- JSON values as delivered by `response.json()`.  `null` also stands for the
Python `None` object. -/
inductive Json where
  | null : Json
  | bool (b : Bool) : Json
  | num (n : Int) : Json
  | str (s : String) : Json
  | arr (elems : List Json) : Json
  | obj (fields : List (String × Json)) : Json

/-- Modelled from the spec: the `Instance` dataclass of `tamr_client._types`
(not among the modeled sources) is `\x7bprotocol, host, port (optional)\x7d`. -/
structure Instance where
  protocol : String
  host : String
  port : Option Nat

/-- Modelled from the spec: the `URL` dataclass of `tamr_client._types`
(not among the modeled sources) is `\x7binstance, path\x7d`.  The path field holds
whatever Python value was assigned to it, hence `Json`. -/
structure URL where
  inst : Instance
  path : Json

/-- An HTTP response as seen through the external session capability:
`status_code`, the parsed `json()` body, and the request `url` attribute. -/
structure HttpResponse where
  status_code : Nat
  body : Json
  url : String

/-- The errors the modeled code can raise.  `operationNotFound` is
`operation.NotFound`, `datasetNotFound` is `dataset.NotFound`, `ambiguous` is
`dataset.Ambiguous`, `httpError` is the transport error of
`response.successful`, `timeoutError` is Python's `TimeoutError`, and
`keyError` / `typeError` / `attributeError` / `indexError` are the
corresponding Python built-in exceptions. -/
inductive ClientError where
  | operationNotFound (url : URL)
  | datasetNotFound (url : String)
  | ambiguous (url : String)
  | httpError (status_code : Nat)
  | keyError (key : String)
  | typeError
  | attributeError
  | indexError
  | timeoutError (timeout_seconds : Option Rat)

/-- First binding of a key in a JSON object's field list (Python dict keys are
unique, so first match is the match). -/
def lookupField (fields : List (String × Json)) (k : String) : Option Json :=
  (fields.find? (fun kv => kv.1 == k)).map (fun kv => kv.2)

/-- Python `d[k]` for a string key `k`: on a dict, the stored value (KeyError
when the key is absent); on any other JSON value, TypeError. -/
def pyGetItem (d : Json) (k : String) : Except ClientError Json :=
  match d with
  | .obj fields =>
    match lookupField fields k with
    | none => .error (.keyError k)
    | some v => .ok v
  | _ => .error .typeError

/-- Python `d.get(k)`: on a dict, the stored value, or `None` when the key is
absent; a stored JSON `null` is the Python `None` object, so it is also
reported as `none`.  On a non-dict, AttributeError (no `get` method). -/
def pyGetOpt (d : Json) (k : String) : Except ClientError (Option Json) :=
  match d with
  | .obj fields =>
    match lookupField fields k with
    | none => .ok none
    | some .null => .ok none
    | some v => .ok (some v)
  | _ => .error .attributeError

/-- Python `len`: length of a list, string, or dict; TypeError otherwise. -/
def pyLen (j : Json) : Except ClientError Nat :=
  match j with
  | .arr l => .ok l.length
  | .obj fields => .ok fields.length
  | .str s => .ok s.length
  | _ => .error .typeError

/-- Python `x[0]`: head of a list (IndexError when empty), first character of
a string, KeyError on a dict (the integer key `0` matches no string key), and
TypeError otherwise. -/
def pyIndexZero (j : Json) : Except ClientError Json :=
  match j with
  | .arr [] => .error .indexError
  | .arr (x :: _) => .ok x
  | .str s =>
    if s.isEmpty then .error .indexError
    else .ok (.str (String.singleton (s.get 0)))
  | .obj _ => .error (.keyError "0")
  | _ => .error .typeError

/-- Python `tuple(x)`: the elements of a list, the characters of a string, the
keys of a dict; TypeError on non-iterables. -/
def pyTuple (j : Json) : Except ClientError (List Json) :=
  match j with
  | .arr l => .ok l
  | .str s => .ok (s.toList.map (fun c => .str (String.singleton c)))
  | .obj fields => .ok (fields.map (fun kv => .str kv.1))
  | _ => .error .typeError

/-- Python `str(x)` as used inside an f-string.  Scalars are rendered exactly;
for containers Python would render the list/dict repr, a case no modeled code
path reaches (operation ids are scalars), so an opaque token stands in. -/
def pyFStr (j : Json) : String :=
  match j with
  | .null => "None"
  | .bool b => if b then "True" else "False"
  | .num n => toString n
  | .str s => s
  | .arr _ => "<list>"
  | .obj _ => "<dict>"

/-- Python `j == s` for a string literal `s`: true exactly for the equal JSON
string (values of other types never equal a `str`). -/
def jsonEqStr (j : Json) (s : String) : Bool :=
  match j with
  | .str t => t == s
  | _ => false

/-- Python `j in l` for a list `l` of string literals. -/
def jsonInStrs (j : Json) (l : List String) : Bool :=
  l.any (jsonEqStr j)

/-- Modelled from the spec: `tamr_client.response.successful` is not among the
modeled sources; per the spec a 2xx response passes through unchanged and any
other response fails with the generic transport error. -/
def successful (r : HttpResponse) : Except ClientError HttpResponse :=
  if 200 ≤ r.status_code ∧ r.status_code < 300 then .ok r
  else .error (.httpError r.status_code)

/-- The `Operation` dataclass of `tamr_client/operation.py`: url, type, and
optional status and description.  `status` is the Python attribute: `none`
models the Python `None`. -/
structure Operation where
  url : URL
  type : Json
  status : Option Json := none
  description : Option Json := none

namespace operation

/-- Embeds `operation._from_json`: `Operation(url, type=cp["type"],
status=cp.get("status"), description=cp.get("description"))`.  The `deepcopy`
of the source is the identity on immutable values, so it does not appear. -/
def _from_json (url : URL) (data : Json) : Except ClientError Operation :=
  match pyGetItem data "type" with
  | .error e => .error e
  | .ok ty =>
    match pyGetOpt data "status" with
    | .error e => .error e
    | .ok status =>
      match pyGetOpt data "description" with
      | .error e => .error e
      | .ok description => .ok ⟨url, ty, status, description⟩

/-- Embeds `operation._from_url`, with `r` the session's response to the GET:
404 raises `operation.NotFound`, any other non-2xx the transport error, and a
2xx body is deserialized by `_from_json`. -/
def _from_url (r : HttpResponse) (url : URL) : Except ClientError Operation :=
  if r.status_code == 404 then .error (.operationNotFound url)
  else
    match successful r with
    | .error e => .error e
    | .ok r2 => _from_json url r2.body

/-- Embeds `operation.poll`: one fetch of the operation's own URL. -/
def poll (r : HttpResponse) (operation : Operation) : Except ClientError Operation :=
  _from_url r operation.url

/-- Embeds `operation.succeeded`: `operation.status is not None and
operation.status["state"] == "SUCCEEDED"` (the dict access can raise). -/
def succeeded (operation : Operation) : Except ClientError Bool :=
  match operation.status with
  | none => .ok false
  | some st =>
    match pyGetItem st "state" with
    | .error e => .error e
    | .ok s => .ok (jsonEqStr s "SUCCEEDED")

/-- The fixed timestamp `_never` of `operation._from_response`. -/
def _never : String := "0000-00-00T00:00:00.000Z"

/-- The `_description` literal of `operation._from_response` (a Python
triple-quoted string, hence the embedded newline and indentation). -/
def noopDescription : String :=
  "Tamr returned HTTP 204 for this operation, indicating that all\n            results that would be produced by the operation are already up-to-date."

/-- The `status` sub-object of the dummy 204 resource. -/
def noopStatusJson : Json :=
  .obj
    [ ("state", .str "SUCCEEDED"),
      ("startTime", .str _never),
      ("endTime", .str _never),
      ("message", .str "") ]

/-- The literal dummy resource JSON that `operation._from_response` builds for
an HTTP 204 response. -/
def noopResourceJson : Json :=
  .obj
    [ ("id", .str "-1"),
      ("type", .str "NOOP"),
      ("description", .str noopDescription),
      ("status", noopStatusJson),
      ("created",
        .obj [("username", .str ""), ("time", .str _never), ("version", .str "-1")]),
      ("lastModified",
        .obj [("username", .str ""), ("time", .str _never), ("version", .str "-1")]),
      ("relativeId", .str "operations/-1") ]

/-- Embeds `operation._from_response`: a 204 response is replaced by the dummy
NOOP resource, otherwise the response body is used; then the id is read and
the operation deserialized at URL path `operations/{id}`. -/
def _from_response (inst : Instance) (r : HttpResponse) : Except ClientError Operation :=
  let resource_json := if r.status_code == 204 then noopResourceJson else r.body
  match pyGetItem resource_json "id" with
  | .error e => .error e
  | .ok idJ =>
    _from_json ⟨inst, .str ("operations/" ++ pyFStr idJ)⟩ resource_json

/-- Result of a run of `wait`: the operation returned or the exception raised,
with the number of polls and sleeps performed; `outOfFuel` models a run that
has not yet terminated after the given number of loop iterations. -/
inductive WaitOutcome where
  | returned (op : Operation) (polls sleeps : Nat)
  | raised (e : ClientError) (polls sleeps : Nat)
  | outOfFuel (polls sleeps : Nat)

/-- The loop condition of `wait`:
`timeout_seconds is None or now() - started < timeout_seconds`, where
`started = clock 0` and the check at iteration `checkIdx` reads
`now() = clock checkIdx`. -/
def deadlineOk (clock : Nat → Rat) (timeout_seconds : Option Rat) (checkIdx : Nat) : Bool :=
  match timeout_seconds with
  | none => true
  | some t => decide (clock checkIdx - clock 0 < t)

/-- The `while` loop of `operation.wait`, one constructor-step per iteration:
check the deadline; on `status is None` return; on a PENDING/RUNNING state
sleep then re-poll; on a terminal state return; on any other state re-poll
without sleeping; when the deadline check fails raise `TimeoutError`.
`responses polls` is the session's response to the next poll. -/
def waitLoop (responses : Nat → HttpResponse) (clock : Nat → Rat)
    (timeout_seconds : Option Rat) :
    Nat → Operation → Nat → Nat → Nat → WaitOutcome
  | 0, _, _, polls, sleeps => .outOfFuel polls sleeps
  | fuel + 1, op, checkIdx, polls, sleeps =>
    if deadlineOk clock timeout_seconds checkIdx then
      match op.status with
      | none => .returned op polls sleeps
      | some st =>
        match pyGetItem st "state" with
        | .error e => .raised e polls sleeps
        | .ok s =>
          if jsonInStrs s ["PENDING", "RUNNING"] then
            match poll (responses polls) op with
            | .error e => .raised e (polls + 1) (sleeps + 1)
            | .ok op2 =>
              waitLoop responses clock timeout_seconds fuel op2 (checkIdx + 1)
                (polls + 1) (sleeps + 1)
          else if jsonInStrs s ["CANCELED", "SUCCEEDED", "FAILED"] then
            .returned op polls sleeps
          else
            match poll (responses polls) op with
            | .error e => .raised e (polls + 1) sleeps
            | .ok op2 =>
              waitLoop responses clock timeout_seconds fuel op2 (checkIdx + 1)
                (polls + 1) sleeps
    else .raised (.timeoutError timeout_seconds) polls sleeps

set_option linter.unusedVariables false in
/-- Embeds `operation.wait`.  `poll_interval_seconds` only fixes the real
duration of each sleep, which the arbitrary clock oracle already absorbs. -/
def wait (responses : Nat → HttpResponse) (clock : Nat → Rat) (fuel : Nat)
    (operation : Operation) (poll_interval_seconds : Int := 3)
    (timeout_seconds : Option Rat := none) : WaitOutcome :=
  waitLoop responses clock timeout_seconds fuel operation 1 0 0

/-- True exactly on an outcome that raised Python's `TimeoutError`. -/
def raisedTimeout : WaitOutcome → Bool
  | .raised (.timeoutError _) _ _ => true
  | _ => false

end operation

/-- The `Dataset` dataclass of `tamr_client/dataset/dataset.py`: url, name,
key attribute names (a tuple), optional description. -/
structure Dataset where
  url : URL
  name : Json
  key_attribute_names : List Json
  description : Option Json := none

namespace dataset

/-- Embeds `dataset._from_json`: `Dataset(url, name=cp["name"],
description=cp.get("description"),
key_attribute_names=tuple(cp["keyAttributeNames"]))`, with Python's
left-to-right evaluation of the arguments. -/
def _from_json (url : URL) (data : Json) : Except ClientError Dataset :=
  match pyGetItem data "name" with
  | .error e => .error e
  | .ok name =>
    match pyGetOpt data "description" with
    | .error e => .error e
    | .ok description =>
      match pyGetItem data "keyAttributeNames" with
      | .error e => .error e
      | .ok kanJ =>
        match pyTuple kanJ with
        | .error e => .error e
        | .ok kan => .ok ⟨url, name, kan, description⟩

/-- Embeds `dataset.by_name`, with `r` the session's response to the
name-filtered collection GET: zero matches raise `dataset.NotFound(str(r.url))`,
two or more raise `dataset.Ambiguous(str(r.url))`, and the single match is
deserialized at the URL built from its own `relativeId`. -/
def by_name (r : HttpResponse) (inst : Instance) : Except ClientError Dataset :=
  let matchesJ := r.body
  match pyLen matchesJ with
  | .error e => .error e
  | .ok n =>
    if n == 0 then .error (.datasetNotFound r.url)
    else if 1 < n then .error (.ambiguous r.url)
    else
      match pyIndexZero matchesJ with
      | .error e => .error e
      | .ok m0 =>
        match pyGetItem m0 "relativeId" with
        | .error e => .error e
        | .ok relId => _from_json ⟨inst, relId⟩ m0

end dataset

/-- The value of `d.get(k)` on a dict `d` (used to state what `pyGetOpt`
computes on objects): `none` for an absent key or a stored JSON `null`. -/
def optValue (fields : List (String × Json)) (k : String) : Option Json :=
  match lookupField fields k with
  | none => none
  | some .null => none
  | some v => some v

/-!
Concrete sample data used by witnesses and counterexamples.
-/

/-- A sample Tamr instance. -/
def instW : Instance := ⟨"https", "example.com", none⟩

/-- A sample operation URL. -/
def urlW : URL := ⟨instW, .str "operations/1"⟩

/-- A status dict with state PENDING. -/
def stPending : Json := .obj [("state", .str "PENDING")]

/-- A status dict with state SUCCEEDED. -/
def stSucceeded : Json := .obj [("state", .str "SUCCEEDED")]

/-- A status dict whose state is none of the five known states. -/
def stWeird : Json := .obj [("state", .str "WEIRD")]

/-- A sample operation currently PENDING. -/
def opPending : Operation := ⟨urlW, .str "JOB", some stPending, none⟩

/-- A sample operation that has SUCCEEDED (a terminal state). -/
def opSucceededW : Operation := ⟨urlW, .str "JOB", some stSucceeded, none⟩

/-- A sample operation with an unrecognized state. -/
def opWeird : Operation := ⟨urlW, .str "JOB", some stWeird, none⟩

/-- A sample operation whose status is absent (`None`). -/
def opNoStatus : Operation := ⟨urlW, .str "JOB", none, none⟩

/-- Operation JSON body with a PENDING status. -/
def pendingBody : Json := .obj [("type", .str "JOB"), ("status", stPending)]

/-- Operation JSON body with a SUCCEEDED status. -/
def succeededBody : Json := .obj [("type", .str "JOB"), ("status", stSucceeded)]

/-- A 200 response delivering `pendingBody`. -/
def respPending : HttpResponse := ⟨200, pendingBody, "https://example.com/api/versioned/operations/1"⟩

/-- A 200 response delivering `succeededBody`. -/
def respSucceeded : HttpResponse := ⟨200, succeededBody, "https://example.com/api/versioned/operations/1"⟩

/-- A 204 No Content response. -/
def respNoContent : HttpResponse := ⟨204, .null, "https://example.com/api/versioned/datasets/1:refresh"⟩

/-- A poll trace whose first poll yields PENDING and every later one SUCCEEDED. -/
def responsesPS : Nat → HttpResponse := fun n => if n = 0 then respPending else respSucceeded

/-- A poll trace every poll of which yields SUCCEEDED. -/
def responsesS : Nat → HttpResponse := fun _ => respSucceeded

/-- A clock oracle on which no time ever passes. -/
def clockZero : Nat → Rat := fun _ => 0

/-- A sample dataset record as returned inside a filtered collection response. -/
def dsRecord : Json :=
  .obj
    [ ("name", .str "d"),
      ("keyAttributeNames", .arr [.str "pk"]),
      ("relativeId", .str "datasets/7") ]

/-- A collection response containing exactly one dataset record. -/
def respOneDs : HttpResponse :=
  ⟨200, .arr [dsRecord], "https://example.com/api/versioned/datasets?filter=name==d"⟩

/-- The dataset deserialized from `dsRecord`. -/
def dsW : Dataset := ⟨⟨instW, .str "datasets/7"⟩, .str "d", [.str "pk"], none⟩

/-- Dataset JSON fields with both required keys and no description. -/
def fieldsW : List (String × Json) :=
  [("name", .str "d"), ("keyAttributeNames", .arr [.str "pk"])]

/-- Operation JSON fields with only the required `type` key. -/
def gfieldsW : List (String × Json) := [("type", .str "SPARK")]

end Tamr

namespace Tamr

/-- True exactly on the `TimeoutError` constructor of `ClientError`. -/
def isTimeoutErr : ClientError → Bool
  | .timeoutError _ => true
  | _ => false

theorem raisedTimeout_raised (e : ClientError) (p s : Nat) :
    operation.raisedTimeout (.raised e p s) = isTimeoutErr e := by
  cases e <;> rfl

theorem pyGetItem_error_not_timeout (d : Json) (k : String) (e : ClientError)
    (h : pyGetItem d k = .error e) : isTimeoutErr e = false := by
  cases d with
  | obj fields =>
    cases hl : lookupField fields k with
    | none =>
      simp only [pyGetItem, hl] at h
      cases h
      rfl
    | some v =>
      simp only [pyGetItem, hl] at h
      cases h
  | null => cases h; rfl
  | bool b => cases h; rfl
  | num n => cases h; rfl
  | str s => cases h; rfl
  | arr l => cases h; rfl

theorem pyGetOpt_obj (fields : List (String × Json)) (k : String) :
    pyGetOpt (.obj fields) k = .ok (optValue fields k) := by
  cases hl : lookupField fields k with
  | none => simp only [pyGetOpt, optValue, hl]
  | some v => cases v <;> simp only [pyGetOpt, optValue, hl]

theorem operation_from_json_error_not_timeout (url : URL) (data : Json) (e : ClientError)
    (h : operation._from_json url data = .error e) : isTimeoutErr e = false := by
  unfold operation._from_json at h
  cases h1 : pyGetItem data "type" with
  | error e1 =>
    rw [h1] at h
    cases h
    exact pyGetItem_error_not_timeout _ _ _ h1
  | ok ty =>
    rw [h1] at h
    cases data with
    | obj fields =>
      rw [pyGetOpt_obj] at h
      rw [pyGetOpt_obj] at h
      cases h
    | null => cases h2 : pyGetOpt .null "status" with
      | error e2 => rw [h2] at h; cases h; cases h2; rfl
      | ok o => simp [pyGetOpt] at h2
    | bool b => cases h; rfl
    | num n => cases h; rfl
    | str s => cases h; rfl
    | arr l => cases h; rfl

theorem successful_error_not_timeout (r : HttpResponse) (e : ClientError)
    (h : successful r = .error e) : isTimeoutErr e = false := by
  unfold successful at h
  by_cases hc : 200 ≤ r.status_code ∧ r.status_code < 300
  · rw [if_pos hc] at h; cases h
  · rw [if_neg hc] at h; cases h; rfl

theorem operation_from_url_error_not_timeout (r : HttpResponse) (url : URL) (e : ClientError)
    (h : operation._from_url r url = .error e) : isTimeoutErr e = false := by
  unfold operation._from_url at h
  by_cases h404 : (r.status_code == 404) = true
  · rw [if_pos h404] at h; cases h; rfl
  · rw [if_neg h404] at h
    cases hs : successful r with
    | error e1 =>
      rw [hs] at h
      cases h
      exact successful_error_not_timeout _ _ hs
    | ok r2 =>
      rw [hs] at h
      exact operation_from_json_error_not_timeout _ _ _ h

theorem poll_error_not_timeout (r : HttpResponse) (op : Operation) (e : ClientError)
    (h : operation.poll r op = .error e) : isTimeoutErr e = false :=
  operation_from_url_error_not_timeout _ _ _ h

end Tamr

namespace Tamr

theorem waitLoop_step_none (responses : Nat → HttpResponse) (clock : Nat → Rat)
    (t : Option Rat) (fuel : Nat) (op : Operation) (c p s : Nat)
    (hd : operation.deadlineOk clock t c = true)
    (hst : op.status = none) :
    operation.waitLoop responses clock t (fuel + 1) op c p s = .returned op p s := by
  simp only [operation.waitLoop, hd, if_true, hst]

theorem waitLoop_step_terminal (responses : Nat → HttpResponse) (clock : Nat → Rat)
    (t : Option Rat) (fuel : Nat) (op : Operation) (c p s : Nat) (st sj : Json)
    (hd : operation.deadlineOk clock t c = true)
    (hst : op.status = some st)
    (hg : pyGetItem st "state" = .ok sj)
    (hpend : jsonInStrs sj ["PENDING", "RUNNING"] = false)
    (hterm : jsonInStrs sj ["CANCELED", "SUCCEEDED", "FAILED"] = true) :
    operation.waitLoop responses clock t (fuel + 1) op c p s = .returned op p s := by
  simp only [operation.waitLoop, hd, if_true, hst, hg, hpend, hterm,
    Bool.false_eq_true, if_false]

theorem waitLoop_step_pending (responses : Nat → HttpResponse) (clock : Nat → Rat)
    (t : Option Rat) (fuel : Nat) (op op2 : Operation) (c p s : Nat) (st sj : Json)
    (hd : operation.deadlineOk clock t c = true)
    (hst : op.status = some st)
    (hg : pyGetItem st "state" = .ok sj)
    (hpend : jsonInStrs sj ["PENDING", "RUNNING"] = true)
    (hpoll : operation.poll (responses p) op = .ok op2) :
    operation.waitLoop responses clock t (fuel + 1) op c p s =
      operation.waitLoop responses clock t fuel op2 (c + 1) (p + 1) (s + 1) := by
  simp only [operation.waitLoop, hd, if_true, hst, hg, hpend, hpoll]

theorem waitLoop_step_other (responses : Nat → HttpResponse) (clock : Nat → Rat)
    (t : Option Rat) (fuel : Nat) (op op2 : Operation) (c p s : Nat) (st sj : Json)
    (hd : operation.deadlineOk clock t c = true)
    (hst : op.status = some st)
    (hg : pyGetItem st "state" = .ok sj)
    (hpend : jsonInStrs sj ["PENDING", "RUNNING"] = false)
    (hterm : jsonInStrs sj ["CANCELED", "SUCCEEDED", "FAILED"] = false)
    (hpoll : operation.poll (responses p) op = .ok op2) :
    operation.waitLoop responses clock t (fuel + 1) op c p s =
      operation.waitLoop responses clock t fuel op2 (c + 1) (p + 1) s := by
  simp only [operation.waitLoop, hd, if_true, hst, hg, hpend, hterm,
    Bool.false_eq_true, if_false, hpoll]

theorem waitLoop_step_deadline (responses : Nat → HttpResponse) (clock : Nat → Rat)
    (t : Option Rat) (fuel : Nat) (op : Operation) (c p s : Nat)
    (hd : operation.deadlineOk clock t c = false) :
    operation.waitLoop responses clock t (fuel + 1) op c p s =
      .raised (.timeoutError t) p s := by
  simp only [operation.waitLoop, hd, Bool.false_eq_true, if_false]

theorem waitLoop_none_no_timeout (responses : Nat → HttpResponse) (clock : Nat → Rat) :
    ∀ (fuel : Nat) (op : Operation) (c p s : Nat),
      operation.raisedTimeout
        (operation.waitLoop responses clock none fuel op c p s) = false := by
  intro fuel
  induction fuel with
  | zero => intro op c p s; rfl
  | succ n ih =>
    intro op c p s
    have hd : operation.deadlineOk clock none c = true := rfl
    cases hst : op.status with
    | none => rw [waitLoop_step_none responses clock none n op c p s hd hst]; rfl
    | some st =>
      cases hg : pyGetItem st "state" with
      | error e =>
        have : operation.waitLoop responses clock none (n + 1) op c p s =
            .raised e p s := by
          simp only [operation.waitLoop, hd, if_true, hst, hg]
        rw [this, raisedTimeout_raised]
        exact pyGetItem_error_not_timeout _ _ _ hg
      | ok sj =>
        by_cases hpend : jsonInStrs sj ["PENDING", "RUNNING"] = true
        · cases hpoll : operation.poll (responses p) op with
          | error e =>
            have : operation.waitLoop responses clock none (n + 1) op c p s =
                .raised e (p + 1) (s + 1) := by
              simp only [operation.waitLoop, hd, if_true, hst, hg, hpend, hpoll]
            rw [this, raisedTimeout_raised]
            exact poll_error_not_timeout _ _ _ hpoll
          | ok op2 =>
            rw [waitLoop_step_pending responses clock none n op op2 c p s st sj hd hst hg
              hpend hpoll]
            exact ih op2 (c + 1) (p + 1) (s + 1)
        · rw [Bool.not_eq_true] at hpend
          by_cases hterm : jsonInStrs sj ["CANCELED", "SUCCEEDED", "FAILED"] = true
          · rw [waitLoop_step_terminal responses clock none n op c p s st sj hd hst hg
              hpend hterm]
            rfl
          · rw [Bool.not_eq_true] at hterm
            cases hpoll : operation.poll (responses p) op with
            | error e =>
              have : operation.waitLoop responses clock none (n + 1) op c p s =
                  .raised e (p + 1) s := by
                simp only [operation.waitLoop, hd, if_true, hst, hg, hpend, hterm,
                  Bool.false_eq_true, if_false, hpoll]
              rw [this, raisedTimeout_raised]
              exact poll_error_not_timeout _ _ _ hpoll
            | ok op2 =>
              rw [waitLoop_step_other responses clock none n op op2 c p s st sj hd hst hg
                hpend hterm hpoll]
              exact ih op2 (c + 1) (p + 1) s

end Tamr

namespace Tamr

theorem terminal_state_not_pending (sj : Json)
    (h : jsonInStrs sj ["CANCELED", "SUCCEEDED", "FAILED"] = true) :
    jsonInStrs sj ["PENDING", "RUNNING"] = false := by
  cases sj with
  | str s =>
    simp only [jsonInStrs, jsonEqStr, List.any_cons, List.any_nil, Bool.or_false,
      Bool.or_eq_true, beq_iff_eq] at h
    rcases h with h | h | h <;> subst h <;> rfl
  | null => rfl
  | bool b => rfl
  | num n => rfl
  | arr l => rfl
  | obj f => rfl

/-- C10: `wait` called with `timeout_seconds = None` never raises the
`TimeoutError`: whatever the session's responses, the clock readings, the
starting operation and the number of loop iterations run, the outcome is never
a raised timeout (it is a returned operation, an error propagated from inside
the loop, or a still-running loop). -/
theorem c10_wait_unbounded_never_timeout (responses : Nat → HttpResponse)
    (clock : Nat → Rat) (fuel : Nat) (op : Operation) (poll_interval_seconds : Int) :
    operation.raisedTimeout
      (operation.wait responses clock fuel op poll_interval_seconds none) = false :=
  waitLoop_none_no_timeout responses clock fuel op 1 0 0

/-- C6: an operation whose status is `None` is returned unchanged by `wait` on
the first check, with zero polls and zero sleeps, whenever the first deadline
check passes (in particular with the default `timeout_seconds = None`). -/
theorem c6_wait_status_none_returns_unchanged (responses : Nat → HttpResponse)
    (clock : Nat → Rat) (poll_interval_seconds : Int) (t : Option Rat) (n : Nat)
    (op : Operation) (hst : op.status = none)
    (hd : operation.deadlineOk clock t 1 = true) :
    operation.wait responses clock (n + 1) op poll_interval_seconds t =
      .returned op 0 0 :=
  waitLoop_step_none responses clock t n op 1 0 0 hd hst

/-- C6 witness at a concrete status-less operation with the default timeout. -/
theorem c6_witness :
    operation.wait responsesS clockZero 1 opNoStatus 3 none =
      .returned opNoStatus 0 0 :=
  c6_wait_status_none_returns_unchanged responsesS clockZero 3 none 0 opNoStatus rfl rfl

/-- C5: with `timeout_seconds = 0` the very first deadline check fails (the
clock being monotone, the elapsed time is not below zero), so `wait` raises
`TimeoutError` carrying the configured timeout after zero polls and zero
sleeps — for every operation, in particular any that never becomes terminal. -/
theorem c5_wait_timeout_zero_raises (responses : Nat → HttpResponse)
    (clock : Nat → Rat) (poll_interval_seconds : Int) (n : Nat) (op : Operation)
    (hclock : clock 0 ≤ clock 1) :
    operation.wait responses clock (n + 1) op poll_interval_seconds (some 0) =
      .raised (.timeoutError (some 0)) 0 0 := by
  have h1 : ¬ (clock 1 - clock 0 < (0 : Rat)) := by
    rw [sub_neg]
    exact not_lt.mpr hclock
  have hd : operation.deadlineOk clock (some 0) 1 = false := by
    simp only [operation.deadlineOk, decide_eq_false h1]
  exact waitLoop_step_deadline responses clock (some 0) n op 1 0 0 hd

/-- C5 witness at a concrete never-terminal (PENDING) operation. -/
theorem c5_witness :
    operation.wait responsesS clockZero 1 opPending 3 (some 0) =
      .raised (.timeoutError (some 0)) 0 0 :=
  c5_wait_timeout_zero_raises responsesS clockZero 3 0 opPending (le_refl _)

/-- C4 counterexample: an operation that is already terminal (its `succeeded`
check is true), yet `wait` with `timeout_seconds = 0` raises `TimeoutError` —
the deadline check precedes the status check, so terminality does not prevent
the timeout, contradicting the claim's "regardless of timeout_seconds". -/
theorem c4_counterexample :
    operation.succeeded opSucceededW = .ok true ∧
    operation.wait responsesS clockZero 1 opSucceededW 3 (some 0) =
      .raised (.timeoutError (some 0)) 0 0 :=
  ⟨rfl, waitLoop_step_deadline responsesS clockZero (some 0) 0 opSucceededW 1 0 0
    (by simp only [operation.deadlineOk, clockZero, sub_self, decide_eq_false_iff_not]
        exact lt_irrefl 0)⟩

/-- C4 amended: an operation that is already terminal (state CANCELED,
SUCCEEDED or FAILED) or has absent status is returned immediately — so `wait`
never raises `TimeoutError` on it — provided the first deadline check passes,
i.e. `timeout_seconds` is `None` or the elapsed time at the first check is
below it; with `timeout_seconds = 0` the timeout fires even on such
operations. -/
theorem c4_amended_terminal_returns_when_deadline_ok (responses : Nat → HttpResponse)
    (clock : Nat → Rat) (poll_interval_seconds : Int) (t : Option Rat) (n : Nat)
    (op : Operation)
    (hterm : op.status = none ∨ ∃ st sj, op.status = some st ∧
      pyGetItem st "state" = .ok sj ∧
      jsonInStrs sj ["CANCELED", "SUCCEEDED", "FAILED"] = true)
    (hd : operation.deadlineOk clock t 1 = true) :
    operation.wait responses clock (n + 1) op poll_interval_seconds t =
      .returned op 0 0 := by
  rcases hterm with hst | ⟨st, sj, hst, hg, ht⟩
  · exact waitLoop_step_none responses clock t n op 1 0 0 hd hst
  · exact waitLoop_step_terminal responses clock t n op 1 0 0 st sj hd hst hg
      (terminal_state_not_pending sj ht) ht

/-- C4 amended witness at a concrete SUCCEEDED operation with no timeout. -/
theorem c4_amended_witness :
    operation.wait responsesS clockZero 1 opSucceededW 3 none =
      .returned opSucceededW 0 0 :=
  c4_amended_terminal_returns_when_deadline_ok responsesS clockZero 3 none 0 opSucceededW
    (Or.inr ⟨stSucceeded, .str "SUCCEEDED", rfl, rfl, rfl⟩) rfl

/-- C1: when the snapshots of the operation observed across successive polls
of its URL carry states PENDING (the operation handed to `wait`), then PENDING
(first poll), then SUCCEEDED (second poll), `wait` with
`timeout_seconds = None` returns the SUCCEEDED snapshot after exactly 2 sleeps
and exactly 2 polls. -/
theorem c1_wait_pending_pending_succeeded (responses : Nat → HttpResponse)
    (clock : Nat → Rat) (poll_interval_seconds : Int) (n : Nat)
    (op0 op1 op2 : Operation) (st0 st1 st2 : Json)
    (h0 : op0.status = some st0) (h0s : pyGetItem st0 "state" = .ok (.str "PENDING"))
    (hp0 : operation.poll (responses 0) op0 = .ok op1)
    (h1 : op1.status = some st1) (h1s : pyGetItem st1 "state" = .ok (.str "PENDING"))
    (hp1 : operation.poll (responses 1) op1 = .ok op2)
    (h2 : op2.status = some st2) (h2s : pyGetItem st2 "state" = .ok (.str "SUCCEEDED")) :
    operation.wait responses clock (n + 3) op0 poll_interval_seconds none =
      .returned op2 2 2 := by
  have hd : ∀ c, operation.deadlineOk clock none c = true := fun _ => rfl
  calc operation.waitLoop responses clock none (n + 3) op0 1 0 0
      = operation.waitLoop responses clock none (n + 2) op1 2 1 1 :=
        waitLoop_step_pending responses clock none (n + 2) op0 op1 1 0 0 st0
          (.str "PENDING") (hd 1) h0 h0s rfl hp0
    _ = operation.waitLoop responses clock none (n + 1) op2 3 2 2 :=
        waitLoop_step_pending responses clock none (n + 1) op1 op2 2 1 1 st1
          (.str "PENDING") (hd 2) h1 h1s rfl hp1
    _ = .returned op2 2 2 :=
        waitLoop_step_terminal responses clock none n op2 3 2 2 st2
          (.str "SUCCEEDED") (hd 3) h2 h2s rfl rfl

/-- C1 witness on a concrete trace whose polls yield PENDING then SUCCEEDED. -/
theorem c1_witness :
    operation.wait responsesPS clockZero 3 opPending 3 none =
      .returned opSucceededW 2 2 :=
  c1_wait_pending_pending_succeeded responsesPS clockZero 3 0 opPending opPending
    opSucceededW stPending stPending stSucceeded rfl rfl rfl rfl rfl rfl rfl rfl

/-- C2 counterexample: on an operation whose state is the unrecognized
`"WEIRD"`, `wait` with `timeout_seconds = None` does NOT proceed to the
timeout failure without re-polling: it re-polls immediately (here the poll
yields a SUCCEEDED snapshot) and returns it, having performed 1 poll and 0
sleeps. -/
theorem c2_counterexample :
    operation.wait responsesS clockZero 2 opWeird 3 none =
      .returned opSucceededW 1 0 := rfl

/-- C2 amended: on a present status whose state is neither PENDING, RUNNING,
SUCCEEDED, FAILED nor CANCELED, `wait` falls through without sleeping and
immediately re-polls the operation, continuing the loop with the polled
snapshot; the timeout failure is reached only when a later deadline check
fails. -/
theorem c2_amended_unrecognized_state_repolls (responses : Nat → HttpResponse)
    (clock : Nat → Rat) (t : Option Rat) (fuel : Nat) (op op2 : Operation)
    (c p s : Nat) (st sj : Json)
    (hd : operation.deadlineOk clock t c = true)
    (hst : op.status = some st)
    (hg : pyGetItem st "state" = .ok sj)
    (hpend : jsonInStrs sj ["PENDING", "RUNNING"] = false)
    (hterm : jsonInStrs sj ["CANCELED", "SUCCEEDED", "FAILED"] = false)
    (hpoll : operation.poll (responses p) op = .ok op2) :
    operation.waitLoop responses clock t (fuel + 1) op c p s =
      operation.waitLoop responses clock t fuel op2 (c + 1) (p + 1) s :=
  waitLoop_step_other responses clock t fuel op op2 c p s st sj hd hst hg hpend hterm hpoll

/-- C2 amended witness on the concrete unrecognized-state operation. -/
theorem c2_amended_witness :
    operation.waitLoop responsesS clockZero none 2 opWeird 1 0 0 =
      operation.waitLoop responsesS clockZero none 1 opSucceededW 2 1 0 :=
  c2_amended_unrecognized_state_repolls responsesS clockZero none 1 opWeird opSucceededW
    1 0 0 stWeird (.str "WEIRD") rfl rfl rfl rfl rfl rfl

end Tamr

namespace Tamr

/-- C3: every HTTP 204 response makes `_from_response` synthesize the dummy
NOOP operation: the result is an Operation whose type is `"NOOP"`, whose
status dict has `state == "SUCCEEDED"`, and on which `succeeded` is true. -/
theorem c3_from_response_204 (inst : Instance) (r : HttpResponse)
    (h204 : r.status_code = 204) :
    ∃ op stJ,
      operation._from_response inst r = .ok op ∧
      op.type = .str "NOOP" ∧
      op.status = some stJ ∧
      pyGetItem stJ "state" = .ok (.str "SUCCEEDED") ∧
      operation.succeeded op = .ok true := by
  refine ⟨⟨⟨inst, .str "operations/-1"⟩, .str "NOOP", some operation.noopStatusJson,
    some (.str operation.noopDescription)⟩, operation.noopStatusJson, ?_, rfl, rfl, rfl, rfl⟩
  unfold operation._from_response
  rw [h204]
  rfl

/-- C3 witness at a concrete 204 response. -/
theorem c3_witness :
    ∃ op stJ,
      operation._from_response instW respNoContent = .ok op ∧
      op.type = .str "NOOP" ∧
      op.status = some stJ ∧
      pyGetItem stJ "state" = .ok (.str "SUCCEEDED") ∧
      operation.succeeded op = .ok true :=
  c3_from_response_204 instW respNoContent rfl

theorem pyTuple_error_eq (j : Json) (e : ClientError) (h : pyTuple j = .error e) :
    e = .typeError := by
  cases j with
  | null => cases h; rfl
  | bool b => cases h; rfl
  | num n => cases h; rfl
  | str s => cases h
  | arr l => cases h
  | obj f => cases h

theorem dataset_from_json_ok_url (url : URL) (data : Json) (ds : Dataset)
    (h : dataset._from_json url data = .ok ds) : ds.url = url := by
  unfold dataset._from_json at h
  cases h1 : pyGetItem data "name" with
  | error e => simp [h1] at h
  | ok nm =>
    cases h2 : pyGetOpt data "description" with
    | error e => simp [h1, h2] at h
    | ok dsc =>
      cases h3 : pyGetItem data "keyAttributeNames" with
      | error e => simp [h1, h2, h3] at h
      | ok kj =>
        cases h4 : pyTuple kj with
        | error e => simp [h1, h2, h3, h4] at h
        | ok t =>
          simp only [h1, h2, h3, h4] at h
          rw [Except.ok.injEq] at h
          subst h
          rfl

theorem by_name_arr (r : HttpResponse) (inst : Instance) (recs : List Json)
    (hbody : r.body = .arr recs) :
    dataset.by_name r inst =
      (if recs.length == 0 then .error (.datasetNotFound r.url)
       else if 1 < recs.length then .error (.ambiguous r.url)
       else
         match pyIndexZero (.arr recs) with
         | .error e => .error e
         | .ok m0 =>
           match pyGetItem m0 "relativeId" with
           | .error e => .error e
           | .ok relId => dataset._from_json ⟨inst, relId⟩ m0) := by
  simp only [dataset.by_name, hbody, pyLen]

theorem by_name_single (r : HttpResponse) (inst : Instance) (rec relId : Json)
    (hbody : r.body = .arr [rec])
    (hrel : pyGetItem rec "relativeId" = .ok relId) :
    dataset.by_name r inst = dataset._from_json ⟨inst, relId⟩ rec := by
  rw [by_name_arr r inst [rec] hbody]
  simp [pyIndexZero, hrel]

/-- C7: on the name-filtered collection response, `by_name` raises
`dataset.NotFound(str(r.url))` for zero records, `dataset.Ambiguous(str(r.url))`
for two or more records, and for exactly one record any Dataset it returns has
as its url the one built from that record's own `relativeId` (not from the
request URL). -/
theorem c7_by_name_match_count (r : HttpResponse) (inst : Instance) (recs : List Json)
    (hbody : r.body = .arr recs) :
    (recs = [] → dataset.by_name r inst = .error (.datasetNotFound r.url)) ∧
    (2 ≤ recs.length → dataset.by_name r inst = .error (.ambiguous r.url)) ∧
    (∀ rec relId ds, recs = [rec] → pyGetItem rec "relativeId" = .ok relId →
      dataset.by_name r inst = .ok ds → ds.url = ⟨inst, relId⟩) := by
  refine ⟨?_, ?_, ?_⟩
  · intro hnil
    subst hnil
    rw [by_name_arr r inst [] hbody]
    rfl
  · intro hlen
    cases recs with
    | nil => simp at hlen
    | cons a tl =>
      cases tl with
      | nil => simp at hlen
      | cons b tl2 =>
        rw [by_name_arr r inst (a :: b :: tl2) hbody]
        have h0 : (((a : Json) :: b :: tl2).length == 0) = false := by simp
        have h1 : 1 < ((a : Json) :: b :: tl2).length := by
          simp only [List.length_cons]
          omega
        rw [h0]
        simp only [Bool.false_eq_true, if_false, if_pos h1]
  · intro rec relId ds hrec hrel hok
    subst hrec
    rw [by_name_single r inst rec relId hbody hrel] at hok
    exact dataset_from_json_ok_url _ _ _ hok

/-- C7 witness at a concrete one-record filtered response. -/
theorem c7_witness :
    dataset.by_name respOneDs instW = .ok dsW ∧
    dsW.url = ⟨instW, .str "datasets/7"⟩ :=
  ⟨rfl, (c7_by_name_match_count respOneDs instW [dsRecord] rfl).2.2 dsRecord
    (.str "datasets/7") dsW rfl rfl rfl⟩

end Tamr

namespace Tamr

/-- C8: on dict input, Dataset deserialization fails with a key-missing error
exactly when `"name"` or `"keyAttributeNames"` is absent; with both present
(and the key attribute value iterable) an absent optional `"description"` does
not fail and yields `None`.  Operation deserialization fails with a
key-missing error exactly when `"type"` is absent, and absent `"status"` and
`"description"` yield `None`. -/
theorem c8_required_fields (url : URL) (fields gfields : List (String × Json)) :
    ((∃ k, dataset._from_json url (.obj fields) = .error (.keyError k)) ↔
      (lookupField fields "name" = none ∨
        lookupField fields "keyAttributeNames" = none)) ∧
    (∀ nm kj t, lookupField fields "name" = some nm →
      lookupField fields "keyAttributeNames" = some kj →
      pyTuple kj = .ok t →
      lookupField fields "description" = none →
      dataset._from_json url (.obj fields) = .ok ⟨url, nm, t, none⟩) ∧
    ((∃ k, operation._from_json url (.obj gfields) = .error (.keyError k)) ↔
      lookupField gfields "type" = none) ∧
    (∀ ty, lookupField gfields "type" = some ty →
      lookupField gfields "status" = none →
      lookupField gfields "description" = none →
      operation._from_json url (.obj gfields) = .ok ⟨url, ty, none, none⟩) := by
  refine ⟨?_, ?_, ?_, ?_⟩
  · cases hn : lookupField fields "name" with
    | none =>
      constructor
      · intro _
        exact Or.inl rfl
      · intro _
        refine ⟨"name", ?_⟩
        simp only [dataset._from_json, pyGetItem, hn]
    | some nm =>
      cases hk : lookupField fields "keyAttributeNames" with
      | none =>
        constructor
        · intro _
          exact Or.inr rfl
        · intro _
          refine ⟨"keyAttributeNames", ?_⟩
          simp only [dataset._from_json, pyGetItem, pyGetOpt_obj, hn, hk]
      | some kj =>
        cases ht : pyTuple kj with
        | error e =>
          have he := pyTuple_error_eq kj e ht
          subst he
          have hval : dataset._from_json url (.obj fields) = .error .typeError := by
            simp only [dataset._from_json, pyGetItem, pyGetOpt_obj, hn, hk, ht]
          constructor
          · rintro ⟨k, hkk⟩
            rw [hval] at hkk
            simp at hkk
          · rintro (h | h)
            · simp [hn] at h
            · simp [hk] at h
        | ok t =>
          have hval : dataset._from_json url (.obj fields) =
              .ok ⟨url, nm, t, optValue fields "description"⟩ := by
            simp only [dataset._from_json, pyGetItem, pyGetOpt_obj, hn, hk, ht]
          constructor
          · rintro ⟨k, hkk⟩
            rw [hval] at hkk
            simp at hkk
          · rintro (h | h)
            · simp [hn] at h
            · simp [hk] at h
  · intro nm kj t hn hk ht hdesc
    simp only [dataset._from_json, pyGetItem, pyGetOpt_obj, hn, hk, ht, optValue, hdesc]
  · cases hty : lookupField gfields "type" with
    | none =>
      constructor
      · intro _
        rfl
      · intro _
        refine ⟨"type", ?_⟩
        simp only [operation._from_json, pyGetItem, hty]
    | some ty =>
      have hval : operation._from_json url (.obj gfields) =
          .ok ⟨url, ty, optValue gfields "status", optValue gfields "description"⟩ := by
        simp only [operation._from_json, pyGetItem, pyGetOpt_obj, hty]
      constructor
      · rintro ⟨k, hkk⟩
        rw [hval] at hkk
        simp at hkk
      · intro h
        simp [hty] at h
  · intro ty hty hstat hdesc
    simp only [operation._from_json, pyGetItem, pyGetOpt_obj, hty, optValue, hstat, hdesc]

/-- C8 witness: concrete dicts with the required keys present and the optional
ones absent deserialize to entities with `None` in the optional fields. -/
theorem c8_witness :
    dataset._from_json urlW (.obj fieldsW) = .ok ⟨urlW, .str "d", [.str "pk"], none⟩ ∧
    operation._from_json urlW (.obj gfieldsW) = .ok ⟨urlW, .str "SPARK", none, none⟩ :=
  ⟨(c8_required_fields urlW fieldsW gfieldsW).2.1 (.str "d") (.arr [.str "pk"])
      [.str "pk"] rfl rfl rfl rfl,
    (c8_required_fields urlW fieldsW gfieldsW).2.2.2 (.str "SPARK") rfl rfl rfl⟩

end Tamr
